import Mathlib

/-!
Shallow embedding of `src/newsletter.py` (news-email repository).

Strings are modelled as Lean `String` (lists of unicode code points), matching
Python `str`.  Python's `str.lower` is modelled on the ASCII and Latin-1
ranges (the only characters the program's keyword, stopword and URL tables
contain); characters outside those ranges are left unchanged, which is
observationally equivalent for every function below, since such characters
can never match an ASCII/Latin-1 table entry either way.  Python's float
threshold `0.85` is modelled as the exact rational `17/20`: every similarity
value the program compares is a ratio `i/u` of small naturals, and for every
such ratio representable in physical memory the float comparison
`i/u >= 0.85` and the exact comparison `i/u >= 17/20` agree.
-/

set_option maxHeartbeats 1000000

namespace Newsletter

/-- Python `str.lower` restricted to the ASCII and Latin-1 letters
(`A`–`Z` and `À`–`Þ` except `×` map to their lowercase forms). -/
def pyLower (c : Char) : Char :=
  if 'A' ≤ c ∧ c ≤ 'Z' then Char.ofNat (c.toNat + 32)
  else if 0xC0 ≤ c.toNat ∧ c.toNat ≤ 0xDE ∧ c.toNat ≠ 0xD7 then Char.ofNat (c.toNat + 32)
  else c

/-- The accent-folding table of `normalize_kw` (the chained `.replace` calls):
`á à â → a`, `é ê → e`, `í → i`, `ó ô → o`, `ú → u`, `ç → c`. -/
def stripAccent (c : Char) : Char :=
  if c = 'á' ∨ c = 'à' ∨ c = 'â' then 'a'
  else if c = 'é' ∨ c = 'ê' then 'e'
  else if c = 'í' then 'i'
  else if c = 'ó' ∨ c = 'ô' then 'o'
  else if c = 'ú' then 'u'
  else if c = 'ç' then 'c'
  else c

/-- `normalize_kw(s)`: `s.lower()` followed by the accent replacements.
Both steps are per-character maps. -/
def normalize_kw (s : String) : String :=
  ⟨(s.data.map pyLower).map stripAccent⟩

/-- The ASCII whitespace characters (Python `\s` / `str.split()` /
`str.strip()` on the ASCII range). -/
def isPySpace (c : Char) : Bool :=
  c == ' ' || c == '\t' || c == '\n' || c == '\r' || c == '\x0b' || c == '\x0c'

/-- `re.sub(r"[^a-z0-9\s]", " ", t)` as a per-character map: characters other
than `a`–`z`, `0`–`9` and whitespace become a space. -/
def keepOrSpace (c : Char) : Char :=
  if ('a' ≤ c ∧ c ≤ 'z') ∨ ('0' ≤ c ∧ c ≤ '9') ∨ isPySpace c = true then c else ' '

/-- Python `str.split()` (no argument): split on runs of whitespace,
dropping empty pieces.  The accumulator holds the current word reversed. -/
def splitWsAux : List Char → List Char → List (List Char)
  | [], acc => if acc.isEmpty then [] else [acc.reverse]
  | c :: rest, acc =>
    if isPySpace c then
      if acc.isEmpty then splitWsAux rest [] else acc.reverse :: splitWsAux rest []
    else splitWsAux rest (c :: acc)

/-- The module-level `STOPWORDS` set, verbatim. -/
def STOPWORDS : List String :=
  ["de", "da", "do", "das", "dos", "para", "por", "em", "no", "na", "nos", "nas",
   "e", "a", "o", "as", "os", "um", "uma", "ao", "à", "com", "sobre", "contra", "entre",
   "se", "que", "porém", "mas", "ou"]

/-- `tokenize_title(t)`: normalize, replace non-alphanumerics with spaces,
split on whitespace, drop stopwords, return the set of tokens. -/
def tokenize_title (t : String) : Finset String :=
  let t1 := normalize_kw t
  let t2 := t1.data.map keepOrSpace
  let toks := (splitWsAux t2 []).map (fun cs => String.mk cs)
  (toks.filter (fun tok => tok ∉ STOPWORDS)).toFinset

/-- The module-level constant `TITLE_SIM_THRESHOLD = 0.85`, as the exact
rational `17/20` (see the header note on float modelling). -/
def TITLE_SIM_THRESHOLD : ℚ := 17 / 20

/-- `title_similarity(t1, t2)`: Jaccard index of the two token sets;
`0` when either set is empty. -/
def title_similarity (t1 t2 : String) : ℚ :=
  let a := tokenize_title t1
  let b := tokenize_title t2
  if a = ∅ ∨ b = ∅ then 0
  else ((a ∩ b).card : ℚ) / ((a ∪ b).card : ℚ)

/-- Python `str.strip()` on a character list (ASCII whitespace). -/
def stripList (cs : List Char) : List Char :=
  ((cs.dropWhile isPySpace).reverse.dropWhile isPySpace).reverse

/-- Python `str.strip()`. -/
def pyStrip (s : String) : String := ⟨stripList s.data⟩

/-- The result of `urllib.parse.urlsplit`. -/
structure SplitResult where
  scheme : String
  netloc : String
  path : String
  query : String
  fragment : String
deriving DecidableEq

/-- Characters allowed in a URL scheme (`urllib.parse.scheme_chars`). -/
def isSchemeChar (c : Char) : Bool :=
  ('a' ≤ c && c ≤ 'z') || ('A' ≤ c && c ≤ 'Z') || ('0' ≤ c && c ≤ '9') ||
    c == '+' || c == '-' || c == '.'

/-- ASCII letter test (Python `c.isascii() and c.isalpha()`). -/
def isAsciiAlpha (c : Char) : Bool :=
  ('a' ≤ c && c ≤ 'z') || ('A' ≤ c && c ≤ 'Z')

/-- The scheme-splitting step of `urlsplit`: a scheme is recognised when the
first `:` is at a positive index, the first character is an ASCII letter and
everything before the `:` is a scheme character; the scheme is lowercased. -/
def splitScheme (url : List Char) : List Char × List Char :=
  match url.findIdx? (· == ':') with
  | none => ([], url)
  | some i =>
    if 0 < i ∧ isAsciiAlpha (url.headD ' ') = true ∧ (url.take i).all isSchemeChar = true
    then ((url.take i).map pyLower, url.drop (i + 1))
    else ([], url)

/-- `urllib.parse._splitnetloc`: the netloc extends to the first of
`/`, `?`, `#` (after the leading `//`, already removed by the caller). -/
def splitNetloc (rest : List Char) : List Char × List Char :=
  match rest.findIdx? (fun c => c == '/' || c == '?' || c == '#') with
  | none => (rest, [])
  | some j => (rest.take j, rest.drop j)

/-- `urllib.parse.urlsplit` (with `allow_fragments = True`), returning `none`
where CPython raises `ValueError` ("Invalid IPv6 URL", for a netloc with an
unmatched square bracket).  Tab, CR and LF are removed up front, as CPython
does.  The non-ASCII-netloc NFKC check and the well-bracketed-IPv6 host
validation are modelled as accepting: no input considered here reaches them. -/
def urlsplitCore (url0 : List Char) : Option SplitResult :=
  let url1 := url0.filter (fun c => !(c == '\t' || c == '\r' || c == '\n'))
  let sr := splitScheme url1
  let nr :=
    if sr.2.take 2 = ['/', '/'] then splitNetloc (sr.2.drop 2) else ([], sr.2)
  if ('[' ∈ nr.1 ∧ ']' ∉ nr.1) ∨ (']' ∈ nr.1 ∧ '[' ∉ nr.1) then none
  else
    let fr :=
      match nr.2.findIdx? (· == '#') with
      | none => (nr.2, [])
      | some i => (nr.2.take i, nr.2.drop (i + 1))
    let pq :=
      match fr.1.findIdx? (· == '?') with
      | none => (fr.1, [])
      | some i => (fr.1.take i, fr.1.drop (i + 1))
    some ⟨⟨sr.1⟩, ⟨nr.1⟩, ⟨pq.1⟩, ⟨pq.2⟩, ⟨fr.2⟩⟩

/-- `urllib.parse.urlsplit` on a string. -/
def urlsplit (s : String) : Option SplitResult := urlsplitCore s.data

/-- Python `str.lower` on a whole string (Latin-1 model, see header). -/
def pyLowerStr (s : String) : String := ⟨s.data.map pyLower⟩

/-- Python `str.rstrip("/")`. -/
def rstripSlash (s : String) : String := ⟨(s.data.reverse.dropWhile (· == '/')).reverse⟩

/-- `urllib.parse.urlunsplit(("", netloc, path, "", ""))`: with empty scheme,
query and fragment, CPython produces `"//" + netloc + path` (prefixing `/` to
a non-empty path that does not start with one) when the netloc is non-empty
or the path starts with `//`, and the bare path otherwise. -/
def urlunsplit_empty (netloc path : String) : String :=
  if netloc ≠ "" ∨ path.data.take 2 = ['/', '/'] then
    let p := if path ≠ "" ∧ path.data.head? ≠ some '/' then "/" ++ path else path
    "//" ++ netloc ++ p
  else path

/-- `normalize_url(u)`: split the stripped URL; on success drop the scheme,
lowercase the host, strip a leading `www.`, strip trailing `/` from the path
and drop query and fragment; on a `ValueError` from `urlsplit` return the
original argument `u` unchanged (the `except` branch returns `u`, not the
stripped string). -/
def normalize_url (u : String) : String :=
  match urlsplit (pyStrip u) with
  | none => u
  | some s =>
    let host := pyLowerStr s.netloc
    let host := if host.data.take 4 = ['w', 'w', 'w', '.'] then String.mk (host.data.drop 4) else host
    let path := rstripSlash s.path
    urlunsplit_empty host path

/-- The mutable state of a `Deduper` instance: `self.seen_urls` (a Python
set) and `self.titles` (a Python list, appended in order). -/
structure DedupState where
  seen_urls : Finset String
  titles : List String
deriving DecidableEq

/-- `Deduper.__init__(self, title_threshold=TITLE_SIM_THRESHOLD)`: the body
assigns only `seen_urls = set()` and `titles = []`; the `title_threshold`
parameter is accepted and discarded, exactly as in the source. -/
def Deduper.init (title_threshold : ℚ) : DedupState :=
  ⟨∅, []⟩

/-- The source's test `title_similarity(t1, t2) >= TITLE_SIM_THRESHOLD` in
cross-multiplied integer form (`17 * |A∪B| ≤ 20 * |A∩B|`), so that the Lean
kernel can evaluate it on concrete inputs; `sim_ge_threshold_iff` proves it
equal to the direct rational comparison. -/
def sim_ge_threshold (t1 t2 : String) : Bool :=
  let a := tokenize_title t1
  let b := tokenize_title t2
  if a = ∅ ∨ b = ∅ then false
  else 17 * (a ∪ b).card ≤ 20 * (a ∩ b).card

/-- `Deduper.is_dup(self, title, url)`: duplicate if the normalized URL was
seen, else duplicate if some stored title has similarity at or above
`TITLE_SIM_THRESHOLD` (the module constant, not the constructor argument),
else record the normalized URL and the title and report novel. -/
def is_dup (d : DedupState) (title url : String) : Bool × DedupState :=
  let u_norm := normalize_url url
  if u_norm ∈ d.seen_urls then (true, d)
  else if d.titles.any (fun t => sim_ge_threshold t title) then (true, d)
  else (false, ⟨insert u_norm d.seen_urls, d.titles ++ [title]⟩)

/-- One aggregation run feeding a sequence of `(title, url)` candidates
through a single shared `Deduper` (as `rotina` does, in order, across all
sections): returns the accepted candidates in order and the final state. -/
def run_dedup : DedupState → List (String × String) → List (String × String) × DedupState
  | d, [] => ([], d)
  | d, (t, u) :: rest =>
    let r := is_dup d t u
    let s := run_dedup r.2 rest
    (if r.1 then s.1 else (t, u) :: s.1, s.2)

/-- Like `run_dedup` but returning the per-call boolean results (the
observable answers of `is_dup`). -/
def run_dedup_results : DedupState → List (String × String) → List Bool × DedupState
  | d, [] => ([], d)
  | d, (t, u) :: rest =>
    let r := is_dup d t u
    let s := run_dedup_results r.2 rest
    (r.1 :: s.1, s.2)

/-- `needle.isPrefixOf hay` on character lists (Boolean, kernel-friendly). -/
def isPrefixB : List Char → List Char → Bool
  | [], _ => true
  | _ :: _, [] => false
  | a :: as, b :: bs => a == b && isPrefixB as bs

/-- Python's substring test `needle in hay` on character lists. -/
def isSubstring (needle : List Char) : List Char → Bool
  | [] => needle.isEmpty
  | c :: rest => isPrefixB needle (c :: rest) || isSubstring needle rest

/-- Python's substring test `needle in hay` on strings. -/
def strContains (hay needle : String) : Bool := isSubstring needle.data hay.data

/-- `belongs_to_section(url, must_parts)`: any required part is a substring
of the lowercased path of `urlsplit(url)`.  This call site has no
`try`/`except`, so a `ValueError` from `urlsplit` propagates: that case is
`none`. -/
def belongs_to_section (url : String) (must_parts : List String) : Option Bool :=
  match urlsplit url with
  | none => none
  | some s =>
    some (must_parts.any (fun part => strContains (pyLowerStr s.path) part))

/-- Python `text.split(". ")`: split on each non-overlapping occurrence of
the two-character separator, leftmost first.  The accumulator holds the
current piece reversed. -/
def splitDotSpace : List Char → List Char → List (List Char)
  | [], acc => [acc.reverse]
  | '.' :: ' ' :: rest, acc => acc.reverse :: splitDotSpace rest []
  | c :: rest, acc => splitDotSpace rest (c :: acc)

/-- Python `s.rsplit(" ", 1)[0]`: everything before the last space, or the
whole string when it has no space. -/
def dropLastWord (cs : List Char) : List Char :=
  match cs.reverse.findIdx? (· == ' ') with
  | none => cs
  | some i => (cs.reverse.drop (i + 1)).reverse

/-- `summarize_text(text, max_chars=900)`: empty in, empty out; otherwise
keep the stripped `". "`-separated pieces longer than 40 characters, join
the first 6 with `". "`, and truncate to 900 characters at a word boundary
with a trailing ellipsis. -/
def summarize_text (text : String) : String :=
  if text = "" then ""
  else
    let parts := ((splitDotSpace text.data []).map stripList).filter (fun p => 40 < p.length)
    let summary := List.intercalate ['.', ' '] (parts.take 6)
    if 900 < summary.length then ⟨dropLastWord (summary.take 900) ++ ['…']⟩
    else ⟨summary⟩

/-- The three fetch strategies a section can invoke. -/
inductive FetchKind
  | primary
  | rendered
  | feed
deriving DecidableEq

/-- `fetch_links_bulk(driver, url, ...)` with the two network fetchers
abstracted as oracle functions `fr` (requests) and `fs` (Selenium): try the
requests fetch; if it returned a non-empty list, return it, otherwise return
the Selenium fetch's result.  The second component records which fetchers
were invoked, in order. -/
def fetch_links_bulk (fr fs : String → List (String × String)) (url : String) :
    List (String × String) × List FetchKind :=
  let links := fr url
  if links = [] then (fs url, [FetchKind.primary, FetchKind.rendered])
  else (links, [FetchKind.primary])

/-- A section's configuration entry in `SECTIONS`: an HTML `url` (used by
the non-NYT branch) and an optional `rss` value (used by the NYT branch;
Python's `conf.get("rss")` is falsy when missing or empty). -/
structure SectionConf where
  url : String
  rss : Option String
deriving DecidableEq

/-- Python truthiness of `conf.get("rss")`. -/
def truthyOpt : Option String → Bool
  | none => false
  | some s => s != ""

/-- The fetch strategies `rotina` invokes for one section, from the source's
dispatch: a section of the `"NYT"` source calls `fetch_nyt_rss` exactly when
`conf.get("rss")` is truthy, and nothing else; every other section goes
through `collect_section_items`, hence `fetch_links_bulk`. -/
def rotina_section_fetches (isNYT : Bool) (conf : SectionConf)
    (fr fs : String → List (String × String)) : List FetchKind :=
  if isNYT then
    match conf.rss with
    | none => []
    | some r => if r = "" then [] else [FetchKind.feed]
  else (fetch_links_bulk fr fs conf.url).2

/-- The loop body of `collect_section_items`, with the article download
abstracted as the oracle `download : url → page text` (the network call).
For each raw candidate in order: skip it unless `belongs_to_section`; skip
it if `is_dup`; otherwise append `(title, link, summarize_text(download
link))` and stop once `want` items are collected (the length check runs
after the append).  `none` models the uncaught `ValueError` that
`belongs_to_section` would raise on a malformed URL. -/
def collect_loop (download : String → String) (must_parts : List String) (want : Nat) :
    List (String × String) → DedupState → Nat →
      Option (List (String × String × String) × DedupState)
  | [], d, _ => some ([], d)
  | (title, link) :: rest, d, cnt =>
    match belongs_to_section link must_parts with
    | none => none
    | some false => collect_loop download must_parts want rest d cnt
    | some true =>
      let r := is_dup d title link
      if r.1 then collect_loop download must_parts want rest r.2 cnt
      else
        let item := (title, link, summarize_text (download link))
        if want ≤ cnt + 1 then some ([item], r.2)
        else
          match collect_loop download must_parts want rest r.2 (cnt + 1) with
          | none => none
          | some s => some (item :: s.1, s.2)

/-- `collect_section_items(driver, url, must_parts, global_deduper,
want_items)`, with the raw links (the value `fetch_links_bulk` returned) and
the article download given as inputs. -/
def collect_section_items (download : String → String) (raw_links : List (String × String))
    (must_parts : List String) (d : DedupState) (want_items : Nat) :
    Option (List (String × String × String) × DedupState) :=
  collect_loop download must_parts want_items raw_links d 0

/-- The module-level `HEALTH_KEYWORDS` set, verbatim. -/
def HEALTH_KEYWORDS : List String :=
  ["plano de saude", "plano de saúde", "saude", "saúde",
   "seguros", "seguro", "health", "health insurance", "insurance"]

/-- The health-bucket test of `rotina` (both branches): `t_norm =
normalize_kw(title)` and `any(normalize_kw(k) in t_norm for k in
HEALTH_KEYWORDS)`.  The item's `summary` is in scope at that point in the
source but does not appear in the test; the parameter mirrors that. -/
def rotina_health_selected (title summary : String) : Bool :=
  HEALTH_KEYWORDS.any (fun k => strContains (normalize_kw title) (normalize_kw k))

/-- The health-bucket rule as the specification words it: keyword
containment in the normalized title-plus-summary text.  Modelled from the
spec for the refinement comparison, not from the source. -/
def health_selected_claim (title summary : String) : Bool :=
  HEALTH_KEYWORDS.any (fun k =>
    strContains (normalize_kw (title ++ " " ++ summary)) (normalize_kw k))

/-- Observable events of `enviar_email`: an SSL attempt, a STARTTLS attempt,
a backoff sleep of the given number of seconds, a successful return, the
terminal `RuntimeError`. -/
inductive MailEvent
  | ssl (attempt : Nat)
  | tls (attempt : Nat)
  | sleep (seconds : Nat)
  | success
  | terminalError
deriving DecidableEq

/-- One iteration of the retry loop of `enviar_email`, attempt number `k`,
with the two transports abstracted as oracles: try SSL; on failure try
STARTTLS; on failure sleep `2 * k` seconds.  Returns the events and whether
the function returned. -/
def mail_cycle (sslOk tlsOk : Nat → Bool) (k : Nat) : List MailEvent × Bool :=
  if sslOk k then ([MailEvent.ssl k, MailEvent.success], true)
  else if tlsOk k then ([MailEvent.ssl k, MailEvent.tls k, MailEvent.success], true)
  else ([MailEvent.ssl k, MailEvent.tls k, MailEvent.sleep (2 * k)], false)

/-- The retry loop over the given attempt numbers; after the loop the
terminal `RuntimeError` is raised. -/
def mail_loop (sslOk tlsOk : Nat → Bool) : List Nat → List MailEvent
  | [] => [MailEvent.terminalError]
  | k :: rest =>
    let c := mail_cycle sslOk tlsOk k
    if c.2 then c.1 else c.1 ++ mail_loop sslOk tlsOk rest

/-- `enviar_email`'s control flow: `for attempt in range(1, 4)` over the
cycle above. -/
def enviar_email_trace (sslOk tlsOk : Nat → Bool) : List MailEvent :=
  mail_loop sslOk tlsOk [1, 2, 3]

/-- The sleep duration of an event, for extracting the backoff schedule. -/
def sleepSeconds : MailEvent → Option Nat
  | MailEvent.sleep s => some s
  | _ => none

/-! ### Helper lemmas -/

/-- The integer form of the threshold test agrees with the rational
comparison of the source. -/
theorem sim_ge_threshold_iff (t1 t2 : String) :
    sim_ge_threshold t1 t2 = true ↔ TITLE_SIM_THRESHOLD ≤ title_similarity t1 t2 := by
  simp only [sim_ge_threshold, title_similarity, TITLE_SIM_THRESHOLD]
  by_cases h : tokenize_title t1 = ∅ ∨ tokenize_title t2 = ∅
  · simp only [h, if_pos]
    norm_num
  · push_neg at h
    have hne : (tokenize_title t1 ∪ tokenize_title t2).Nonempty :=
      Finset.Nonempty.mono Finset.subset_union_left (Finset.nonempty_iff_ne_empty.mpr h.1)
    have hu : (0 : ℚ) < ((tokenize_title t1 ∪ tokenize_title t2).card : ℚ) := by
      exact_mod_cast Finset.card_pos.mpr hne
    rw [if_neg (by simpa using h), if_neg (by simpa using h), decide_eq_true_eq,
      div_le_div_iff₀ (by norm_num) hu]
    constructor
    · intro hle
      have : (17 : ℚ) * ((tokenize_title t1 ∪ tokenize_title t2).card : ℚ)
          ≤ 20 * ((tokenize_title t1 ∩ tokenize_title t2).card : ℚ) := by exact_mod_cast hle
      linarith
    · intro hle
      have : (17 : ℚ) * ((tokenize_title t1 ∪ tokenize_title t2).card : ℚ)
          ≤ 20 * ((tokenize_title t1 ∩ tokenize_title t2).card : ℚ) := by linarith
      exact_mod_cast this

/-- Jaccard similarity is symmetric. -/
theorem title_similarity_comm (a b : String) : title_similarity a b = title_similarity b a := by
  simp only [title_similarity]
  by_cases h1 : tokenize_title a = ∅ <;> by_cases h2 : tokenize_title b = ∅ <;>
    simp [h1, h2, Finset.inter_comm, Finset.union_comm]

/-- A duplicate verdict leaves the state unchanged. -/
theorem is_dup_true_state {d : DedupState} {t u : String} (h : (is_dup d t u).1 = true) :
    (is_dup d t u).2 = d := by
  simp only [is_dup] at h ⊢
  split_ifs at h ⊢ <;> simp_all

/-- A novel verdict is exactly a fresh URL plus below-threshold similarity to
every stored title. -/
theorem is_dup_false_iff (d : DedupState) (t u : String) :
    (is_dup d t u).1 = false ↔
      normalize_url u ∉ d.seen_urls
        ∧ ∀ t0 ∈ d.titles, title_similarity t0 t < TITLE_SIM_THRESHOLD := by
  simp only [is_dup]
  split_ifs with h1 h2
  · simp [h1]
  · simp only [show ((true, d) : Bool × DedupState).1 = true from rfl,
      Bool.true_eq_false, false_iff, not_and, not_forall]
    intro _
    obtain ⟨t0, ht0, hge⟩ := List.any_eq_true.mp h2
    exact ⟨t0, ht0, not_lt.mpr ((sim_ge_threshold_iff t0 t).mp hge)⟩
  · simp only [show ((false, (⟨insert (normalize_url u) d.seen_urls, d.titles ++ [t]⟩ :
      DedupState)) : Bool × DedupState).1 = false from rfl, true_iff]
    refine ⟨h1, fun t0 ht0 => not_le.mp fun hle => h2 ?_⟩
    exact List.any_eq_true.mpr ⟨t0, ht0, (sim_ge_threshold_iff t0 t).mpr hle⟩

/-- A novel verdict records the normalized URL and appends the title. -/
theorem is_dup_false_state {d : DedupState} {t u : String} (h : (is_dup d t u).1 = false) :
    (is_dup d t u).2 = ⟨insert (normalize_url u) d.seen_urls, d.titles ++ [t]⟩ := by
  simp only [is_dup] at h ⊢
  split_ifs at h ⊢ <;> simp_all

/-- Every candidate accepted anywhere in a run was, at the moment the run
started, URL-fresh and below similarity threshold against every stored
title. -/
theorem run_dedup_accepted_fresh :
    ∀ (qs : List (String × String)) (d : DedupState) (x : String × String),
      x ∈ (run_dedup d qs).1 →
        normalize_url x.2 ∉ d.seen_urls
          ∧ ∀ t0 ∈ d.titles, title_similarity t0 x.1 < TITLE_SIM_THRESHOLD := by
  intro qs
  induction qs with
  | nil => intro d x hx; simp [run_dedup] at hx
  | cons q rest ih =>
    intro d x hx
    obtain ⟨t, u⟩ := q
    simp only [run_dedup] at hx
    by_cases hr : (is_dup d t u).1
    · rw [if_pos hr, is_dup_true_state hr] at hx
      exact ih d x hx
    · have hF : (is_dup d t u).1 = false := by simpa using hr
      rw [if_neg hr, is_dup_false_state hF] at hx
      rcases List.mem_cons.mp hx with hx | hx
      · subst hx
        exact (is_dup_false_iff d t u).mp hF
      · have hfresh := ih _ x hx
        exact ⟨fun hmem => hfresh.1 (Finset.mem_insert_of_mem hmem),
          fun t0 ht0 => hfresh.2 t0 (List.mem_append_left _ ht0)⟩

/-- The accepted list of a run is pairwise URL-distinct and pairwise below
the title-similarity threshold (in both orders). -/
theorem run_dedup_pairwise (qs : List (String × String)) (d : DedupState) :
    List.Pairwise
      (fun a b : String × String =>
        normalize_url a.2 ≠ normalize_url b.2
          ∧ title_similarity a.1 b.1 < TITLE_SIM_THRESHOLD
          ∧ title_similarity b.1 a.1 < TITLE_SIM_THRESHOLD)
      (run_dedup d qs).1 := by
  induction qs generalizing d with
  | nil => simp [run_dedup]
  | cons q rest ih =>
    obtain ⟨t, u⟩ := q
    simp only [run_dedup]
    by_cases hr : (is_dup d t u).1
    · rw [if_pos hr]
      exact ih _
    · have hF : (is_dup d t u).1 = false := by simpa using hr
      rw [if_neg hr]
      refine List.Pairwise.cons (fun x hx => ?_) (ih _)
      have hfresh := run_dedup_accepted_fresh rest _ x hx
      rw [is_dup_false_state hF] at hfresh
      have ht : t ∈ d.titles ++ [t] := List.mem_append_right _ (List.mem_singleton_self t)
      refine ⟨fun he => hfresh.1 ?_, ?_, ?_⟩
      · rw [← he]; exact Finset.mem_insert_self _ _
      · exact hfresh.2 t ht
      · rw [title_similarity_comm]; exact hfresh.2 t ht

/-! ### Claim theorems -/

/-- Claim C10: the `title_threshold` constructor argument of `Deduper` has
no effect: two instances built with different thresholds give identical
`is_dup` answers and reach identical states on every call sequence, because
`is_dup` compares against the module constant `TITLE_SIM_THRESHOLD` and
`__init__` never stores the parameter. -/
theorem deduper_threshold_irrelevant (t1 t2 : ℚ) (qs : List (String × String)) :
    run_dedup_results (Deduper.init t1) qs = run_dedup_results (Deduper.init t2) qs
      ∧ Deduper.init t1 = Deduper.init t2 :=
  ⟨rfl, rfl⟩

/-- Claim C5 (amended): `title_similarity` is symmetric and valued in
`[0, 1]`, and the self-similarity of a title whose token set is non-empty is
`1`.  (The original claim asked this for every non-empty title string; it
fails for titles whose token set is empty, see the counterexample.) -/
theorem title_similarity_props :
    (∀ a b, title_similarity a b = title_similarity b a)
      ∧ (∀ a b, 0 ≤ title_similarity a b ∧ title_similarity a b ≤ 1)
      ∧ (∀ a, tokenize_title a ≠ ∅ → title_similarity a a = 1) := by
  refine ⟨title_similarity_comm, fun a b => ?_, fun a ha => ?_⟩
  · simp only [title_similarity]
    split_ifs with h
    · norm_num
    · push_neg at h
      have hne : (tokenize_title a ∪ tokenize_title b).Nonempty :=
        Finset.Nonempty.mono Finset.subset_union_left (Finset.nonempty_iff_ne_empty.mpr h.1)
      have hu : (0 : ℚ) < ((tokenize_title a ∪ tokenize_title b).card : ℚ) := by
        exact_mod_cast Finset.card_pos.mpr hne
      refine ⟨div_nonneg (Nat.cast_nonneg _) (Nat.cast_nonneg _), ?_⟩
      rw [div_le_one hu]
      exact_mod_cast Finset.card_le_card Finset.inter_subset_union
  · simp only [title_similarity]
    rw [if_neg (by simp [ha]), Finset.inter_self, Finset.union_self]
    have hc : (0 : ℚ) < ((tokenize_title a).card : ℚ) := by
      exact_mod_cast Finset.card_pos.mpr (Finset.nonempty_iff_ne_empty.mpr ha)
    exact div_self (ne_of_gt hc)

/-- Claim C5, counterexample to the original wording: `"de"` is a non-empty
title (a lone stopword, so its token set is empty) whose self-similarity is
`0`, not `1`. -/
theorem title_similarity_self_counterexample :
    ("de" : String) ≠ "" ∧ title_similarity "de" "de" = 0
      ∧ title_similarity "de" "de" ≠ 1 := by
  have h : tokenize_title "de" = ∅ := by decide
  refine ⟨by decide, by simp [title_similarity, h], by simp [title_similarity, h]⟩

/-- Witness for C5: a title with a non-empty token set has self-similarity
`1`. -/
theorem title_similarity_props_witness :
    title_similarity "mercado financeiro global" "mercado financeiro global" = 1 :=
  title_similarity_props.2.2 "mercado financeiro global" (by decide)

/-- Claim C6 (amended): `normalize_url` is total; when URL splitting fails
it returns the original string unchanged (`return u` — not the stripped
string, contrary to the original claim), and on well-formed URLs it drops
the scheme, lowercases the host, strips `www.` and a trailing slash, and
drops query and fragment, so the two canonical forms below coincide. -/
theorem normalize_url_props :
    (∀ u, urlsplit (pyStrip u) = none → normalize_url u = u)
      ∧ normalize_url "https://www.Example.com/a/b/" = normalize_url "http://example.com/a/b" := by
  constructor
  · intro u h
    simp [normalize_url, h]
  · decide

/-- Claim C6, counterexample to the original wording: on the malformed URL
`" http://[::1"` (leading space, unmatched bracket) splitting fails and
`normalize_url` returns the string with its leading space intact, not the
trimmed degraded key the claim describes. -/
theorem normalize_url_trim_counterexample :
    urlsplit (pyStrip " http://[::1") = none
      ∧ normalize_url " http://[::1" = " http://[::1"
      ∧ normalize_url " http://[::1" ≠ pyStrip " http://[::1" := by decide

/-- Witness for C6: the degraded-key branch applied at a concrete malformed
URL. -/
theorem normalize_url_props_witness :
    normalize_url " http://[::1" = " http://[::1" :=
  normalize_url_props.1 " http://[::1" (by decide)

/-- Claim C1: in a run feeding any candidate sequence through one shared
`Deduper` (whatever threshold its constructor was given), any two distinct
accepted items have different canonical URLs and title similarity strictly
below the threshold, regardless of where in the sequence (which section)
each came from. -/
theorem dedup_global_invariant (thr : ℚ) (qs : List (String × String))
    (a b : String × String)
    (ha : a ∈ (run_dedup (Deduper.init thr) qs).1)
    (hb : b ∈ (run_dedup (Deduper.init thr) qs).1)
    (hne : a ≠ b) :
    normalize_url a.2 ≠ normalize_url b.2
      ∧ title_similarity a.1 b.1 < TITLE_SIM_THRESHOLD := by
  have hsym : Symmetric (fun a b : String × String =>
      normalize_url a.2 ≠ normalize_url b.2
        ∧ title_similarity a.1 b.1 < TITLE_SIM_THRESHOLD
        ∧ title_similarity b.1 a.1 < TITLE_SIM_THRESHOLD) :=
    fun x y h => ⟨h.1.symm, h.2.2, h.2.1⟩
  have h := (run_dedup_pairwise qs (Deduper.init thr)).forall hsym ha hb hne
  exact ⟨h.1, h.2.1⟩

/-- Witness for C1: two concrete accepted items from one run, with distinct
canonical URLs and similarity below threshold. -/
theorem dedup_global_invariant_witness :
    normalize_url "https://example.com/economia/mercados-reagem"
        ≠ normalize_url "https://example.com/politica/congresso-aprova"
      ∧ title_similarity "Mercado financeiro reage a decisao sobre juros"
          "Congresso aprova novo texto do arcabouco fiscal" < TITLE_SIM_THRESHOLD :=
  dedup_global_invariant (17 / 20)
    [("Mercado financeiro reage a decisao sobre juros",
      "https://example.com/economia/mercados-reagem"),
     ("Congresso aprova novo texto do arcabouco fiscal",
      "https://example.com/politica/congresso-aprova")]
    ("Mercado financeiro reage a decisao sobre juros",
      "https://example.com/economia/mercados-reagem")
    ("Congresso aprova novo texto do arcabouco fiscal",
      "https://example.com/politica/congresso-aprova")
    (by decide) (by decide) (by decide)

/-- Claim C2: `is_dup` answers true exactly when the normalized URL was seen
or some stored title reaches the similarity threshold; a true verdict leaves
the state unchanged and a false verdict records the normalized URL and the
title; a fresh `Deduper` fed the same pair twice answers false then true;
and each call grows `seen_urls` and `titles` by at most one element. -/
theorem is_dup_spec (d : DedupState) (t u : String) :
    ((is_dup d t u).1 = true ↔
        normalize_url u ∈ d.seen_urls
          ∨ ∃ t0 ∈ d.titles, TITLE_SIM_THRESHOLD ≤ title_similarity t0 t)
      ∧ ((is_dup d t u).1 = true → (is_dup d t u).2 = d)
      ∧ ((is_dup d t u).1 = false →
          (is_dup d t u).2 = ⟨insert (normalize_url u) d.seen_urls, d.titles ++ [t]⟩)
      ∧ (∀ thr : ℚ,
          is_dup (Deduper.init thr) t u = (false, ⟨{normalize_url u}, [t]⟩)
            ∧ (is_dup (is_dup (Deduper.init thr) t u).2 t u).1 = true)
      ∧ (is_dup d t u).2.seen_urls.card ≤ d.seen_urls.card + 1
      ∧ (is_dup d t u).2.titles.length ≤ d.titles.length + 1 := by
  refine ⟨?_, fun h => is_dup_true_state h, fun h => is_dup_false_state h, fun thr => ?_, ?_, ?_⟩
  · cases hb : (is_dup d t u).1 with
    | false =>
      obtain ⟨hnot, hall⟩ := (is_dup_false_iff d t u).mp hb
      simp only [Bool.false_eq_true, false_iff]
      rintro (h | ⟨t0, ht0, hge⟩)
      · exact hnot h
      · exact absurd hge (not_le.mpr (hall t0 ht0))
    | true =>
      simp only [true_iff]
      by_contra hcon
      push_neg at hcon
      have : (is_dup d t u).1 = false :=
        (is_dup_false_iff d t u).mpr ⟨hcon.1, fun t0 ht0 => hcon.2 t0 ht0⟩
      simp [this] at hb
  · constructor
    · simp [is_dup, Deduper.init]
    · have h1 : is_dup (Deduper.init thr) t u = (false, ⟨{normalize_url u}, [t]⟩) := by
        simp [is_dup, Deduper.init]
      rw [h1]
      simp [is_dup]
  · cases hb : (is_dup d t u).1 with
    | true => rw [is_dup_true_state hb]; exact Nat.le_succ _
    | false => rw [is_dup_false_state hb]; exact Finset.card_insert_le _ _
  · cases hb : (is_dup d t u).1 with
    | true => rw [is_dup_true_state hb]; exact Nat.le_succ _
    | false => rw [is_dup_false_state hb]; simp

/-- Witness for C2: the novel branch at a concrete fresh state records the
normalized URL and the title. -/
theorem is_dup_spec_witness :
    (is_dup (Deduper.init 0) "Alta da Selic pressiona o credito" "https://example.com/economia/selic").2
      = ⟨{normalize_url "https://example.com/economia/selic"}, ["Alta da Selic pressiona o credito"]⟩ :=
  (is_dup_spec (Deduper.init 0) "Alta da Selic pressiona o credito"
      "https://example.com/economia/selic").2.2.1 (by decide)

/-- When a cycle of the retry loop succeeds, the trace ends at that success
and the terminal error is never reached. -/
theorem mail_loop_success_last (sslOk tlsOk : Nat → Bool) :
    ∀ ks : List Nat, MailEvent.success ∈ mail_loop sslOk tlsOk ks →
      (mail_loop sslOk tlsOk ks).getLast? = some MailEvent.success
        ∧ MailEvent.terminalError ∉ mail_loop sslOk tlsOk ks := by
  intro ks
  induction ks with
  | nil => intro h; simp [mail_loop] at h
  | cons k rest ih =>
    intro h
    by_cases hs : sslOk k
    · simp [mail_loop, mail_cycle, hs]
    · by_cases htl : tlsOk k
      · simp [mail_loop, mail_cycle, hs, htl]
      · simp only [mail_loop, mail_cycle, hs, htl] at h ⊢
        simp only [if_neg, Bool.false_eq_true, if_false] at h ⊢
        have hmem : MailEvent.success ∈ mail_loop sslOk tlsOk rest := by
          rcases List.mem_append.mp h with h' | h'
          · simp at h'
          · exact h'
        have hrec := ih hmem
        refine ⟨?_, ?_⟩
        · rw [List.getLast?_append_of_ne_nil _ (List.ne_nil_of_mem hmem)]
          exact hrec.1
        · intro hmem'
          rcases List.mem_append.mp hmem' with h' | h'
          · simp at h'
          · exact hrec.2 h'

/-- Claim C4: when both transports always fail, `enviar_email` runs exactly
three cycles of one SSL attempt followed by one STARTTLS attempt, with
strictly increasing backoff sleeps (2, 4, 6 seconds) between cycles, and
raises the terminal error only after all of them; and whenever any single
attempt succeeds, the trace ends at that success — no further attempts and
no terminal error. -/
theorem enviar_email_retry :
    (∀ sslOk tlsOk : Nat → Bool, (∀ k, sslOk k = false) → (∀ k, tlsOk k = false) →
        enviar_email_trace sslOk tlsOk =
            [MailEvent.ssl 1, MailEvent.tls 1, MailEvent.sleep 2,
             MailEvent.ssl 2, MailEvent.tls 2, MailEvent.sleep 4,
             MailEvent.ssl 3, MailEvent.tls 3, MailEvent.sleep 6, MailEvent.terminalError]
          ∧ (enviar_email_trace sslOk tlsOk).filterMap sleepSeconds = [2, 4, 6]
          ∧ List.Chain' (· < ·) ((enviar_email_trace sslOk tlsOk).filterMap sleepSeconds))
      ∧ (∀ sslOk tlsOk : Nat → Bool, MailEvent.success ∈ enviar_email_trace sslOk tlsOk →
          (enviar_email_trace sslOk tlsOk).getLast? = some MailEvent.success
            ∧ MailEvent.terminalError ∉ enviar_email_trace sslOk tlsOk) := by
  constructor
  · intro sslOk tlsOk h1 h2
    have ht : enviar_email_trace sslOk tlsOk =
        [MailEvent.ssl 1, MailEvent.tls 1, MailEvent.sleep 2,
         MailEvent.ssl 2, MailEvent.tls 2, MailEvent.sleep 4,
         MailEvent.ssl 3, MailEvent.tls 3, MailEvent.sleep 6, MailEvent.terminalError] := by
      simp [enviar_email_trace, mail_loop, mail_cycle, h1, h2]
    have hf : (enviar_email_trace sslOk tlsOk).filterMap sleepSeconds = [2, 4, 6] := by
      rw [ht]; decide
    refine ⟨ht, hf, ?_⟩
    rw [hf]
    norm_num [List.chain'_cons, List.chain'_singleton]
  · intro sslOk tlsOk h
    exact mail_loop_success_last sslOk tlsOk [1, 2, 3] h

/-- Witness for C4: the always-failing oracle produces the full exhaustion
trace, and an immediately succeeding oracle ends at the success event. -/
theorem enviar_email_retry_witness :
    enviar_email_trace (fun _ => false) (fun _ => false) =
        [MailEvent.ssl 1, MailEvent.tls 1, MailEvent.sleep 2,
         MailEvent.ssl 2, MailEvent.tls 2, MailEvent.sleep 4,
         MailEvent.ssl 3, MailEvent.tls 3, MailEvent.sleep 6, MailEvent.terminalError]
      ∧ (enviar_email_trace (fun _ => true) (fun _ => true)).getLast? = some MailEvent.success :=
  ⟨(enviar_email_retry.1 (fun _ => false) (fun _ => false) (fun _ => rfl) (fun _ => rfl)).1,
   (enviar_email_retry.2 (fun _ => true) (fun _ => true) (by decide)).1⟩

/-- Claim C7: `fetch_links_bulk` returns the requests result untouched and
never invokes the Selenium fetch when the requests fetch found links; the
Selenium fetch is invoked exactly when the requests fetch returned zero
candidates, and its result is then returned. -/
theorem fetch_links_bulk_fallback (fr fs : String → List (String × String)) (url : String) :
    (fr url ≠ [] →
        fetch_links_bulk fr fs url = (fr url, [FetchKind.primary])
          ∧ FetchKind.rendered ∉ (fetch_links_bulk fr fs url).2)
      ∧ (fr url = [] →
          fetch_links_bulk fr fs url = (fs url, [FetchKind.primary, FetchKind.rendered])) := by
  constructor
  · intro h
    refine ⟨by simp [fetch_links_bulk, h], ?_⟩
    simp only [fetch_links_bulk, if_neg h]
    decide
  · intro h
    simp [fetch_links_bulk, h]

/-- Witness for C7: a concrete non-empty requests result is returned with no
rendered fetch. -/
theorem fetch_links_bulk_fallback_witness :
    fetch_links_bulk
        (fun _ => [("Titulo com mais de vinte caracteres", "https://example.com/politica/x")])
        (fun _ => []) "https://example.com/politica/"
      = ([("Titulo com mais de vinte caracteres", "https://example.com/politica/x")],
         [FetchKind.primary]) :=
  ((fetch_links_bulk_fallback
      (fun _ => [("Titulo com mais de vinte caracteres", "https://example.com/politica/x")])
      (fun _ => []) "https://example.com/politica/").1 (by decide)).1

/-- Claim C3, counterexample: for an NYT section configured with an RSS
endpoint, `rotina` invokes the feed fetch unconditionally — here the primary
fetch would return candidates, yet it is never invoked at all, so the feed
fetch is not gated on the primary and rendered fetches producing nothing. -/
theorem feed_not_fallback_counterexample :
    FetchKind.feed ∈ rotina_section_fetches true
        ⟨"https://example.com/", some "https://rss.example.com/feed"⟩
        (fun _ => [("titulo bastante longo para o filtro", "https://example.com/a")])
        (fun _ => [])
      ∧ FetchKind.primary ∉ rotina_section_fetches true
          ⟨"https://example.com/", some "https://rss.example.com/feed"⟩
          (fun _ => [("titulo bastante longo para o filtro", "https://example.com/a")])
          (fun _ => []) := by decide

/-- Claim C3 (amended): the feed fetch is performed exactly for NYT sections
whose configuration carries a truthy `rss` endpoint, unconditionally and as
the sole fetch strategy; non-NYT sections run the primary fetch, fall back
to the rendered fetch only on an empty result, and never perform a feed
fetch. -/
theorem rotina_feed_dispatch (conf : SectionConf) (fr fs : String → List (String × String)) :
    rotina_section_fetches true conf fr fs
        = (if truthyOpt conf.rss then [FetchKind.feed] else [])
      ∧ rotina_section_fetches false conf fr fs
          = FetchKind.primary :: (if fr conf.url = [] then [FetchKind.rendered] else [])
      ∧ FetchKind.feed ∉ rotina_section_fetches false conf fr fs := by
  refine ⟨?_, ?_, ?_⟩
  · cases h : conf.rss with
    | none => simp [rotina_section_fetches, truthyOpt, h]
    | some r =>
      by_cases hr : r = "" <;> simp [rotina_section_fetches, truthyOpt, h, hr]
  · simp only [rotina_section_fetches, fetch_links_bulk]
    by_cases h : fr conf.url = [] <;> simp [h]
  · simp only [rotina_section_fetches, fetch_links_bulk]
    by_cases h : fr conf.url = [] <;> simp [h]

/-- Claim C8, counterexample: an accepted item whose summary (but not title)
contains a health keyword is not selected for the health bucket, though the
claimed title-plus-summary rule would select it. -/
theorem health_title_only_counterexample :
    rotina_health_selected "Novo relatorio divulgado hoje pelo governo federal"
        "Reajuste do plano de saude preocupa consumidores" = false
      ∧ health_selected_claim "Novo relatorio divulgado hoje pelo governo federal"
          "Reajuste do plano de saude preocupa consumidores" = true := by decide

/-- Claim C8 (amended): health-bucket membership is decided by substring
containment of each normalized keyword in the normalized title alone; the
summary has no influence on the decision. -/
theorem rotina_health_selected_spec (t s1 s2 : String) :
    rotina_health_selected t s1 = rotina_health_selected t s2
      ∧ (rotina_health_selected t s1 = true ↔
          ∃ k ∈ HEALTH_KEYWORDS, strContains (normalize_kw t) (normalize_kw k) = true) := by
  exact ⟨rfl, by simp [rotina_health_selected, List.any_eq_true]⟩

/-- Witness for C8: a concrete title containing a health keyword is selected
whatever the summary. -/
theorem rotina_health_selected_spec_witness :
    rotina_health_selected "Planos de saude ficam mais caros" "resumo qualquer" = true :=
  (rotina_health_selected_spec "Planos de saude ficam mais caros"
      "resumo qualquer" "outro resumo").2.mpr ⟨"saude", by decide, by decide⟩

/-- The accepted items and final state of the collection loop do not depend
on the article-download oracle; with a failing oracle every summary is
empty. -/
theorem collect_loop_oracle_free (download : String → String) (must_parts : List String)
    (want : Nat) :
    ∀ (raw : List (String × String)) (d : DedupState) (cnt : Nat),
      collect_loop (fun _ => "") must_parts want raw d cnt
        = Option.map (fun p => (p.1.map (fun i => (i.1, i.2.1, ("" : String))), p.2))
            (collect_loop download must_parts want raw d cnt) := by
  intro raw
  induction raw with
  | nil => intro d cnt; simp [collect_loop]
  | cons q rest ih =>
    intro d cnt
    obtain ⟨title, link⟩ := q
    simp only [collect_loop]
    cases hbel : belongs_to_section link must_parts with
    | none => simp
    | some b =>
      cases b with
      | false => exact ih d cnt
      | true =>
        by_cases hr : (is_dup d title link).1
        · rw [if_pos hr, if_pos hr]
          exact ih _ cnt
        · rw [if_neg hr, if_neg hr]
          by_cases hw : want ≤ cnt + 1
          · rw [if_pos hw, if_pos hw]
            simp [show summarize_text "" = "" from rfl]
          · rw [if_neg hw, if_neg hw, ih _ (cnt + 1)]
            cases collect_loop download must_parts want rest (is_dup d title link).2 (cnt + 1) with
            | none => simp
            | some s => simp [show summarize_text "" = "" from rfl]

/-- Claim C9: enrichment failure never rejects an item — `summarize_text` of
empty text is empty, and replacing the article-download oracle by one that
always fails changes no acceptance decision and no deduper state: the same
items are accepted, each with `summary = ""`. -/
theorem collect_enrichment_failure_safe :
    summarize_text "" = ""
      ∧ ∀ (download : String → String) (raw_links : List (String × String))
          (must_parts : List String) (d : DedupState) (want_items : Nat),
          collect_section_items (fun _ => "") raw_links must_parts d want_items
            = Option.map (fun p => (p.1.map (fun i => (i.1, i.2.1, ("" : String))), p.2))
                (collect_section_items download raw_links must_parts d want_items) :=
  ⟨rfl, fun download raw_links must_parts d want_items =>
    collect_loop_oracle_free download must_parts want_items raw_links d 0⟩

end Newsletter
